import Mathlib

set_option linter.unusedVariables false

/-
  Verification of the tool-dispatch and session-continuity layer of the
  bedrock-kb-retrieval-mcp-server repository.

  The embedding follows the source files directly:
  - src/types.ts: configuration and normalized result types;
  - src/bedrock-client.ts: request construction and response normalization
    of the BedrockKnowledgeBaseClient, with the remote AWS call modelled as
    an explicit send function returning either a raw response or a thrown
    error message;
  - src/server.ts: the CallToolRequestSchema handler (validation, session
    registry resolution and update, response shaping, error wrapping),
    with the sessions Map modelled as an insertion-ordered association
    list and Date.now() as an explicit now argument.
-/

namespace KB

/-- JavaScript runtime values, used for the untyped per-call argument bag. -/
inductive JSValue where
  | undef
  | nullv
  | boolv (b : Bool)
  | num (n : Int)
  | str (s : String)
deriving DecidableEq, Repr

/-- JavaScript truthiness: undefined, null, false, 0 and the empty string are falsy. -/
def JSValue.truthy : JSValue → Bool
  | .undef => false
  | .nullv => false
  | .boolv b => b
  | .num n => n != 0
  | .str s => s != ""

/-- The typeof test for the string type. -/
def JSValue.isString : JSValue → Bool
  | .str _ => true
  | _ => false

/-- Extract the string payload of a value (meaningful once isString holds). -/
def JSValue.asString : JSValue → String
  | .str s => s
  | _ => ""

/-- The spread idiom used in bedrock-client.ts, where an optional string field
is included in a request object only when it is truthy: an absent or empty
string becomes an absent field. -/
def truthyOpt : Option String → Option String
  | none => none
  | some s => if s = "" then none else some s

/-- Opaque metadata bag, a record of keys to arbitrary values, passed through unmodified. -/
abbrev Metadata := List (String × JSValue)

structure S3Location where
  uri : String
deriving DecidableEq, Repr

/-- Source locator of a retrieval result, per the location field of types.ts. -/
structure KBLocation where
  type : String
  s3Location : Option S3Location
deriving DecidableEq, Repr

structure Content where
  text : String
deriving DecidableEq, Repr, Inhabited

/-- Normalized retrieval result, per RetrievalResult in types.ts. -/
structure RetrievalResult where
  content : Content
  location : Option KBLocation
  score : Option Rat
  metadata : Option Metadata
deriving DecidableEq, Repr, Inhabited

/-- Character span of a citation; the stop field models the end offset of the source. -/
structure Span where
  start : Int
  stop : Int
deriving DecidableEq, Repr

structure TextResponsePart where
  text : String
  span : Span
deriving DecidableEq, Repr

structure GeneratedResponsePart where
  textResponsePart : TextResponsePart
deriving DecidableEq, Repr

structure RetrievedReference where
  content : Content
  location : Option KBLocation
  metadata : Option Metadata
deriving DecidableEq, Repr

structure Citation where
  generatedResponsePart : GeneratedResponsePart
  retrievedReferences : List RetrievedReference
deriving DecidableEq, Repr

/-- Normalized generation result, per RetrieveAndGenerateResult in types.ts. -/
structure RetrieveAndGenerateResult where
  output : Content
  citations : Option (List Citation)
  sessionId : Option String
deriving DecidableEq, Repr

/-- Raw AWS response fragments: every field the SDK may omit is optional. -/
structure RawContent where
  text : Option String
deriving DecidableEq, Repr

structure RawRetrievalResult where
  content : Option RawContent
  location : Option KBLocation
  score : Option Rat
  metadata : Option Metadata
deriving DecidableEq, Repr

structure RawRetrieveResponse where
  retrievalResults : Option (List RawRetrievalResult)
deriving DecidableEq, Repr

structure RawSpan where
  start : Option Int
  stop : Option Int
deriving DecidableEq, Repr

structure RawTextResponsePart where
  text : Option String
  span : Option RawSpan
deriving DecidableEq, Repr

structure RawGeneratedResponsePart where
  textResponsePart : Option RawTextResponsePart
deriving DecidableEq, Repr

structure RawRetrievedReference where
  content : Option RawContent
  location : Option KBLocation
  metadata : Option Metadata
deriving DecidableEq, Repr

structure RawCitation where
  generatedResponsePart : Option RawGeneratedResponsePart
  retrievedReferences : Option (List RawRetrievedReference)
deriving DecidableEq, Repr

structure RawGenerateResponse where
  output : Option RawContent
  citations : Option (List RawCitation)
  sessionId : Option String
deriving DecidableEq, Repr

/-- Validated configuration object, per ConfigSchema in types.ts. -/
structure Config where
  region : String
  knowledgeBaseId : String
  modelArn : Option String
  maxResults : Nat
  rerankingModelArn : Option String
deriving DecidableEq, Repr

/-- The fields of the outbound RetrieveCommandInput that bedrock-client.ts sets. -/
structure RetrieveRequest where
  knowledgeBaseId : String
  queryText : String
  numberOfResults : Nat
  rerankingModelArn : Option String
  nextToken : Option String
deriving DecidableEq, Repr

/-- The fields of the outbound RetrieveAndGenerateCommandInput that bedrock-client.ts sets. -/
structure GenerateRequest where
  queryText : String
  knowledgeBaseId : String
  modelArn : Option String
  numberOfResults : Nat
  rerankingModelArn : Option String
  promptTemplate : Option String
  sessionId : Option String
deriving DecidableEq, Repr

/-- Construction of the retrieve request: the nextToken field is spread in only
when the sessionId argument is truthy, and the reranking configuration only
when the configured model reference is truthy. -/
def mkRetrieveInput (cfg : Config) (query : String) (sessionId : Option String) :
    RetrieveRequest :=
  { knowledgeBaseId := cfg.knowledgeBaseId
    queryText := query
    numberOfResults := cfg.maxResults
    rerankingModelArn := truthyOpt cfg.rerankingModelArn
    nextToken := truthyOpt sessionId }

/-- Construction of the retrieve-and-generate request: sessionId and the prompt
template are spread in only when truthy. -/
def mkGenerateInput (cfg : Config) (query : String) (sessionId systemPrompt : Option String) :
    GenerateRequest :=
  { queryText := query
    knowledgeBaseId := cfg.knowledgeBaseId
    modelArn := cfg.modelArn
    numberOfResults := cfg.maxResults
    rerankingModelArn := truthyOpt cfg.rerankingModelArn
    promptTemplate := truthyOpt systemPrompt
    sessionId := truthyOpt sessionId }

/-- Mapping of one raw retrieval result: the content text is defaulted to the
empty string, while location, score and metadata are passed through. -/
def normalizeRetrievalResult (r : RawRetrievalResult) : RetrievalResult :=
  { content := { text := (r.content.bind RawContent.text).getD "" }
    location := r.location
    score := r.score
    metadata := r.metadata }

/-- Response branch of BedrockKnowledgeBaseClient.retrieve: a successful raw
response is normalized, a thrown error is re-thrown with the descriptive prefix. -/
def processRetrieveResponse :
    Except String RawRetrieveResponse → Except String (List RetrievalResult)
  | .ok resp => .ok ((resp.retrievalResults.getD []).map normalizeRetrievalResult)
  | .error e => .error ("Failed to retrieve from knowledge base: " ++ e)

/-- BedrockKnowledgeBaseClient.retrieve, with the AWS round trip modelled by send. -/
def retrieve (cfg : Config) (send : RetrieveRequest → Except String RawRetrieveResponse)
    (query : String) (sessionId : Option String) : Except String (List RetrievalResult) :=
  processRetrieveResponse (send (mkRetrieveInput cfg query sessionId))

def normalizeReference (ref : RawRetrievedReference) : RetrievedReference :=
  { content := { text := (ref.content.bind RawContent.text).getD "" }
    location := ref.location
    metadata := ref.metadata }

/-- Mapping of one raw citation: text is defaulted to the empty string, span
offsets to 0 and the reference list to the empty list. -/
def normalizeCitation (c : RawCitation) : Citation :=
  { generatedResponsePart :=
      { textResponsePart :=
          { text := ((c.generatedResponsePart.bind
                RawGeneratedResponsePart.textResponsePart).bind
                RawTextResponsePart.text).getD ""
            span :=
              { start := (((c.generatedResponsePart.bind
                    RawGeneratedResponsePart.textResponsePart).bind
                    RawTextResponsePart.span).bind RawSpan.start).getD 0
                stop := (((c.generatedResponsePart.bind
                    RawGeneratedResponsePart.textResponsePart).bind
                    RawTextResponsePart.span).bind RawSpan.stop).getD 0 } } }
    retrievedReferences := (c.retrievedReferences.getD []).map normalizeReference }

/-- Response branch of BedrockKnowledgeBaseClient.retrieveAndGenerate: output
text is defaulted, the citations option and the sessionId are passed through. -/
def processGenerateResponse :
    Except String RawGenerateResponse → Except String RetrieveAndGenerateResult
  | .ok resp => .ok
      { output := { text := (resp.output.bind RawContent.text).getD "" }
        citations := resp.citations.map (List.map normalizeCitation)
        sessionId := resp.sessionId }
  | .error e => .error ("Failed to retrieve and generate from knowledge base: " ++ e)

/-- BedrockKnowledgeBaseClient.retrieveAndGenerate, with the AWS round trip
modelled by send. -/
def retrieveAndGenerate (cfg : Config)
    (send : GenerateRequest → Except String RawGenerateResponse)
    (query : String) (sessionId systemPrompt : Option String) :
    Except String RetrieveAndGenerateResult :=
  processGenerateResponse (send (mkGenerateInput cfg query sessionId systemPrompt))

/-- The bedrock client interface as the server uses it: a failure is a thrown
plain Error carrying a message. -/
structure Backend where
  retrieve : String → Option String → Except String (List RetrievalResult)
  retrieveAndGenerate :
    String → Option String → Option String → Except String RetrieveAndGenerateResult

/-- The real client as a Backend, parameterized over the two AWS send functions. -/
def clientBackend (cfg : Config)
    (sendR : RetrieveRequest → Except String RawRetrieveResponse)
    (sendG : GenerateRequest → Except String RawGenerateResponse) : Backend :=
  { retrieve := KB.retrieve cfg sendR
    retrieveAndGenerate := KB.retrieveAndGenerate cfg sendG }

inductive ErrorCode where
  | InvalidParams
  | MethodNotFound
  | InternalError
deriving DecidableEq, Repr

structure McpError where
  code : ErrorCode
  message : String
deriving DecidableEq, Repr

/-- A thrown exception as seen by the catch block: either an McpError or any
other error carrying a plain message. -/
inductive JSError where
  | mcp (e : McpError)
  | plain (message : String)
deriving DecidableEq, Repr

/-- The catch block of the call handler: an McpError is re-thrown unchanged,
anything else is wrapped into an InternalError naming the tool. -/
def wrapError (name : String) : JSError → McpError
  | .mcp e => e
  | .plain msg =>
      { code := .InternalError, message := "Error executing tool " ++ name ++ ": " ++ msg }

/-- The sessions Map of BedrockKBMCPServer: an insertion-ordered association
list whose keys stay unique. -/
abbrev Registry := List (String × String)

def regGet : Registry → String → Option String
  | [], _ => none
  | (k', v') :: rest, k => if k' = k then some v' else regGet rest k

def regHas (st : Registry) (k : String) : Bool := (regGet st k).isSome

/-- Map.set: update the value in place when the key is present, append otherwise. -/
def regSet : Registry → String → String → Registry
  | [], k, v => [(k, v)]
  | (k', v') :: rest, k, v =>
      if k' = k then (k, v) :: rest else (k', v') :: regSet rest k v

def regKeys (st : Registry) : List String := st.map Prod.fst

/-- The argument bag after the handler's destructuring cast. Fields other than
query are modelled at their declared optional types. -/
structure Args where
  query : JSValue := .undef
  sessionId : Option String := none
  systemPrompt : Option String := none
  sessionName : Option String := none
  maxResults : Option Int := none
deriving DecidableEq, Repr

structure ShapedResult where
  rank : Nat
  content : String
  score : Option Rat
  source : String
  metadata : Option Metadata
deriving DecidableEq, Repr, Inhabited

structure RetrieveOutput where
  query : String
  results : List ShapedResult
  totalResults : Nat
deriving DecidableEq, Repr

structure ShapedSource where
  content : String
  source : String
  metadata : Option Metadata
deriving DecidableEq, Repr

structure ShapedCitation where
  id : Nat
  text : String
  span : Span
  sources : List ShapedSource
deriving DecidableEq, Repr

structure GenerateOutput where
  query : String
  response : String
  sessionId : Option String
  citations : Option (List ShapedCitation)
deriving DecidableEq, Repr

structure CreateSessionOutput where
  sessionId : String
  message : String
deriving DecidableEq, Repr

structure SessionEntry where
  sessionId : String
  bedrockSessionId : Option String
  active : Bool
deriving DecidableEq, Repr

structure ListSessionsOutput where
  sessions : List SessionEntry
  totalSessions : Nat
deriving DecidableEq, Repr

/-- The payload serialized into the text content of the result envelope. -/
inductive ToolOutput where
  | retrieveOut (o : RetrieveOutput)
  | generateOut (o : GenerateOutput)
  | createOut (o : CreateSessionOutput)
  | listOut (o : ListSessionsOutput)
deriving DecidableEq, Repr

/-- The optional chain reading the s3 uri of a locator, with the Unknown marker
as the falsy default. -/
def sourceOf (loc : Option KBLocation) : String :=
  match loc.bind KBLocation.s3Location with
  | some s3 => if s3.uri = "" then "Unknown" else s3.uri
  | none => "Unknown"

def shapeOne (i : Nat) (r : RetrievalResult) : ShapedResult :=
  { rank := i + 1
    content := r.content.text
    score := r.score
    source := sourceOf r.location
    metadata := r.metadata }

/-- The indexed map over retrieval results used to shape the output. -/
def shapeFrom (i : Nat) : List RetrievalResult → List ShapedResult
  | [] => []
  | r :: rest => shapeOne i r :: shapeFrom (i + 1) rest

def shapeResults (rs : List RetrievalResult) : List ShapedResult := shapeFrom 0 rs

def shapeSource (ref : RetrievedReference) : ShapedSource :=
  { content := ref.content.text
    source := sourceOf ref.location
    metadata := ref.metadata }

def shapeCitation (i : Nat) (c : Citation) : ShapedCitation :=
  { id := i + 1
    text := c.generatedResponsePart.textResponsePart.text
    span := c.generatedResponsePart.textResponsePart.span
    sources := c.retrievedReferences.map shapeSource }

def shapeCitationsFrom (i : Nat) : List Citation → List ShapedCitation
  | [] => []
  | c :: rest => shapeCitation i c :: shapeCitationsFrom (i + 1) rest

def shapeGenerate (q : String) (r : RetrieveAndGenerateResult) : GenerateOutput :=
  { query := q
    response := r.output.text
    sessionId := r.sessionId
    citations := r.citations.map (shapeCitationsFrom 0) }

/-- Resolution of actualSessionId at the start of the retrieve-and-generate
case: a truthy handle that the registry has is replaced by the stored token. -/
def resolveSession (st : Registry) (sessionId : Option String) : Option String :=
  match sessionId with
  | none => none
  | some sid => if sid != "" && regHas st sid then regGet st sid else some sid

/-- A truthy supplied name, or a generated handle built from Date.now(),
which is modelled by the explicit now argument. -/
def handleOrGenerated (o : Option String) (now : Nat) : String :=
  match o with
  | some s => if s = "" then "session_" ++ toString now else s
  | none => "session_" ++ toString now

/-- The store-or-update step after a successful generate response: nothing is
written when the response carries no truthy token. -/
def ragStore (sessionId : Option String) (now : Nat) (st : Registry)
    (respToken : Option String) : Registry :=
  match respToken with
  | some tok => if tok = "" then st else regSet st (handleOrGenerated sessionId now) tok
  | none => st

/-- The part of the retrieve-and-generate case following the backend call. -/
def ragFinish (q : String) (sessionId : Option String) (now : Nat) (st : Registry)
    (res : Except String RetrieveAndGenerateResult) :
    Except JSError (ToolOutput × Registry) :=
  match res with
  | .error e => .error (.plain e)
  | .ok result =>
      .ok (.generateOut (shapeGenerate q result), ragStore sessionId now st result.sessionId)

/-- The part of the retrieve-knowledge case following the backend call. -/
def rkFinish (q : String) (st : Registry)
    (res : Except String (List RetrievalResult)) :
    Except JSError (ToolOutput × Registry) :=
  match res with
  | .error e => .error (.plain e)
  | .ok results =>
      .ok (.retrieveOut
            { query := q, results := shapeResults results, totalResults := results.length },
           st)

/-- The list-sessions mapping over registry entries in insertion order: an
empty stored token shows as a null backend session id and an inactive session. -/
def listShape (st : Registry) : List SessionEntry :=
  st.map fun p =>
    { sessionId := p.1
      bedrockSessionId := if p.2 = "" then none else some p.2
      active := p.2 != "" }

/-- The body of the try block of the CallToolRequestSchema handler: the switch
over the tool name, the query validation of the two retrieval tools, the
session resolution and update, and the output shaping. -/
def dispatch (b : Backend) (now : Nat) (st : Registry) (name : String) (args : Args) :
    Except JSError (ToolOutput × Registry) :=
  if name = "retrieve_knowledge" then
    if !args.query.truthy || !args.query.isString then
      .error (.mcp { code := .InvalidParams, message := "Query is required and must be a string" })
    else
      rkFinish args.query.asString st (b.retrieve args.query.asString args.sessionId)
  else if name = "retrieve_and_generate" then
    if !args.query.truthy || !args.query.isString then
      .error (.mcp { code := .InvalidParams, message := "Query is required and must be a string" })
    else
      ragFinish args.query.asString args.sessionId now st
        (b.retrieveAndGenerate args.query.asString
          (resolveSession st args.sessionId) args.systemPrompt)
  else if name = "create_session" then
    .ok (.createOut
          { sessionId := handleOrGenerated args.sessionName now
            message := "Session created successfully" },
         regSet st (handleOrGenerated args.sessionName now) "")
  else if name = "list_sessions" then
    .ok (.listOut { sessions := listShape st, totalSessions := (listShape st).length }, st)
  else
    .error (.mcp { code := .MethodNotFound, message := "Unknown tool: " ++ name })

/-- The catch block applied to the outcome of the try block. -/
def wrapCall (name : String) :
    Except JSError (ToolOutput × Registry) → Except McpError (ToolOutput × Registry)
  | .ok r => .ok r
  | .error e => .error (wrapError name e)

/-- The full call handler: the try block followed by the catch block. -/
def handleCall (b : Backend) (now : Nat) (st : Registry) (name : String) (args : Args) :
    Except McpError (ToolOutput × Registry) :=
  wrapCall name (dispatch b now st name args)

/-- One dispatched call: the backend in effect, the clock value and the request. -/
structure CallEvent where
  backend : Backend
  now : Nat
  name : String
  args : Args

/-- The registry after one call: an error leaves it as it was. -/
def step (st : Registry) (ev : CallEvent) : Registry :=
  match handleCall ev.backend ev.now st ev.name ev.args with
  | .ok r => r.2
  | .error _ => st

def applyWrite (st : Registry) : Option (String × String) → Registry
  | some kv => regSet st kv.1 kv.2
  | none => st

/-- The single registry write a call performs, if any: the empty token written
by create-session, or the response token of a successful generate call. -/
def stepWrite (st : Registry) (ev : CallEvent) : Option (String × String) :=
  if ev.name = "retrieve_and_generate" then
    if !ev.args.query.truthy || !ev.args.query.isString then none
    else
      match ev.backend.retrieveAndGenerate ev.args.query.asString
          (resolveSession st ev.args.sessionId) ev.args.systemPrompt with
      | .ok r =>
          match r.sessionId with
          | some tok =>
              if tok = "" then none
              else some (handleOrGenerated ev.args.sessionId ev.now, tok)
          | none => none
      | .error _ => none
  else if ev.name = "create_session" then
    some (handleOrGenerated ev.args.sessionName ev.now, "")
  else none

def runRegistry (st : Registry) : List CallEvent → Registry
  | [] => st
  | ev :: evs => runRegistry (step st ev) evs

/-- The sequence of registry writes a trace of calls performs, in order. -/
def traceWrites (st : Registry) : List CallEvent → List (String × String)
  | [] => []
  | ev :: evs => (stepWrite st ev).toList ++ traceWrites (step st ev) evs

/-- The value of the last write to a handle in a write sequence, if any. -/
def lookupLast (ws : List (String × String)) (h : String) : Option String :=
  (ws.reverse.find? fun p => p.1 == h).map Prod.snd

/-- Substring occurrence over character lists. -/
def containsAt : List Char → List Char → Bool
  | pat, [] => List.isPrefixOf pat []
  | pat, c :: cs => List.isPrefixOf pat (c :: cs) || containsAt pat cs

def strContains (s pat : String) : Bool := containsAt pat.toList s.toList

/-- A stub backend whose retrieve call returns a fixed result list. -/
def stubRetrieve (rs : List RetrievalResult) : Backend :=
  { retrieve := fun _ _ => .ok rs
    retrieveAndGenerate := fun _ _ _ =>
      .ok { output := { text := "" }, citations := none, sessionId := none } }

/-- A stub backend whose generate call returns fixed output text and token. -/
def stubGen (text tok : String) : Backend :=
  { retrieve := fun _ _ => .ok []
    retrieveAndGenerate := fun _ _ _ =>
      .ok { output := { text := text }, citations := none, sessionId := some tok } }

/-- A stub backend whose generate call succeeds with no continuation token. -/
def stubGenNoToken : Backend :=
  { retrieve := fun _ _ => .ok []
    retrieveAndGenerate := fun _ _ _ =>
      .ok { output := { text := "r" }, citations := none, sessionId := none } }

/-- The argument bag of the session-update scenario of the spec. -/
def ragArgs (sid : String) : Args := { query := .str "q", sessionId := some sid }

/-- A concrete configuration used by closed scenarios. -/
def cfgX : Config :=
  { region := "us-east-1", knowledgeBaseId := "test-kb-id", modelArn := none,
    maxResults := 10, rerankingModelArn := none }

/-- The client stacked on AWS send functions that throw a throttling error. -/
def throttled : Backend :=
  clientBackend cfgX (fun _ => .error "ThrottlingException")
    (fun _ => .error "ThrottlingException")

/-- First retrieval result of the rank-assignment scenario. -/
def resA : RetrievalResult :=
  { content := { text := "Test content 1" }
    location := some { type := "S3", s3Location := some { uri := "s3://bucket/doc1.pdf" } }
    score := some (95 / 100)
    metadata := none }

/-- Second retrieval result of the rank-assignment scenario. -/
def resB : RetrievalResult :=
  { content := { text := "Test content 2" }
    location := some { type := "S3", s3Location := some { uri := "s3://bucket/doc2.pdf" } }
    score := some (88 / 100)
    metadata := none }

/-- A raw backend result whose optional fields are all absent. -/
def rawSparse : RawRetrievalResult :=
  { content := some { text := some "t" }, location := none, score := none, metadata := none }

/-- A raw generate response without citations, as in the repository test. -/
def rawNoCitations : RawGenerateResponse :=
  { output := some { text := some "Generated response" }, citations := none,
    sessionId := some "session-456" }

/-- A two-call demo trace: create a session, then generate against it. -/
def demoEvents : List CallEvent :=
  [ { backend := stubRetrieve [], now := 0, name := "create_session",
      args := { sessionName := some "energy" } },
    { backend := stubGen "r" "tok-1", now := 1, name := "retrieve_and_generate",
      args := ragArgs "energy" } ]

/-- A generate call with an empty query, which fails validation. -/
def invalidQueryEvent : CallEvent :=
  { backend := stubRetrieve [], now := 0, name := "retrieve_and_generate",
    args := { query := .str "" } }

/-- A generate call whose backend response carries no continuation token. -/
def noTokenEvent : CallEvent :=
  { backend := stubGenNoToken, now := 0, name := "retrieve_and_generate",
    args := ragArgs "energy" }

/-- The registry after one generate call against the stub backend issuing tok-1. -/
def ragStep (sid : String) (now : Nat) (st : Registry) : Registry :=
  step st { backend := stubGen "r" "tok-1", now := now,
            name := "retrieve_and_generate", args := ragArgs sid }

/-- Conclusion of the session-resolution claim: the generate branch factors
through resolveSession, a registered handle resolves to its stored token, an
unregistered one passes through, and after a response carrying tok-1 the
handle resolves to tok-1, so a second call hands tok-1 to the backend. -/
def C2concl (b : Backend) (now now2 : Nat) (st : Registry) (sid : String) : Prop :=
  (handleCall b now st "retrieve_and_generate" (ragArgs sid) =
      wrapCall "retrieve_and_generate"
        (ragFinish "q" (some sid) now st
          (b.retrieveAndGenerate "q" (resolveSession st (some sid)) none)))
  ∧ (∀ tok, regGet st sid = some tok → resolveSession st (some sid) = some tok)
  ∧ (regHas st sid = false → resolveSession st (some sid) = some sid)
  ∧ regGet (ragStep sid now st) sid = some "tok-1"
  ∧ resolveSession (ragStep sid now st) (some sid) = some "tok-1"
  ∧ (handleCall b now2 (ragStep sid now st) "retrieve_and_generate" (ragArgs sid) =
      wrapCall "retrieve_and_generate"
        (ragFinish "q" (some sid) now2 (ragStep sid now st)
          (b.retrieveAndGenerate "q" (some "tok-1") none)))

/-- Conclusion of the rank-assignment claim: the shaped output carries the
query, the 1-based ranks in backend order, the texts, the scores, the Unknown
source marker when no locator is usable, and the total count. -/
def C3concl (b : Backend) (now : Nat) (st : Registry) (q : String)
    (rs : List RetrievalResult) : Prop :=
  handleCall b now st "retrieve_knowledge" { query := .str q } =
      .ok (.retrieveOut { query := q, results := shapeResults rs, totalResults := rs.length },
           st)
  ∧ (shapeResults rs).length = rs.length
  ∧ ∀ i, i < rs.length →
      ((shapeResults rs).getD i default).rank = i + 1
      ∧ ((shapeResults rs).getD i default).content = (rs.getD i default).content.text
      ∧ ((shapeResults rs).getD i default).score = (rs.getD i default).score
      ∧ ((rs.getD i default).location.bind KBLocation.s3Location = none →
          ((shapeResults rs).getD i default).source = "Unknown")

/-- Conclusion of the create-session claim: handle choice, insertion with the
empty token, silent overwrite, the shaped response, and the inactive entry
subsequently reported by list-sessions. -/
def C7concl (b : Backend) (now now2 : Nat) (st : Registry) (nameOpt : Option String) : Prop :=
  handleCall b now st "create_session" { sessionName := nameOpt } =
      .ok (.createOut { sessionId := handleOrGenerated nameOpt now
                        message := "Session created successfully" },
           regSet st (handleOrGenerated nameOpt now) "")
  ∧ (∀ s, nameOpt = some s → s ≠ "" → handleOrGenerated nameOpt now = s)
  ∧ (nameOpt = none → handleOrGenerated nameOpt now = "session_" ++ toString now)
  ∧ regGet (regSet st (handleOrGenerated nameOpt now) "") (handleOrGenerated nameOpt now) =
      some ""
  ∧ handleCall b now2 (regSet st (handleOrGenerated nameOpt now) "") "list_sessions" {} =
      .ok (.listOut
            { sessions := listShape (regSet st (handleOrGenerated nameOpt now) "")
              totalSessions := (listShape (regSet st (handleOrGenerated nameOpt now) "")).length },
           regSet st (handleOrGenerated nameOpt now) "")
  ∧ ({ sessionId := handleOrGenerated nameOpt now, bedrockSessionId := none,
       active := false } : SessionEntry) ∈
      listShape (regSet st (handleOrGenerated nameOpt now) "")

/- Registry lemmas. -/

theorem regGet_regSet (st : Registry) (k v h : String) :
    regGet (regSet st k v) h = if k = h then some v else regGet st h := by
  induction st with
  | nil => simp [regSet, regGet]
  | cons p rest ih =>
      obtain ⟨k', v'⟩ := p
      by_cases h1 : k' = k <;> by_cases h2 : k = h <;>
        simp_all [regSet, regGet]

theorem regGet_regSet_self (st : Registry) (k v : String) :
    regGet (regSet st k v) k = some v := by
  rw [regGet_regSet]; simp

theorem mem_regSet_self (st : Registry) (k v : String) : (k, v) ∈ regSet st k v := by
  induction st with
  | nil => simp [regSet]
  | cons p rest ih =>
      obtain ⟨k', v'⟩ := p
      by_cases h1 : k' = k <;> simp_all [regSet]

theorem regKeys_regSet (st : Registry) (k v : String) :
    regKeys (regSet st k v) =
      if regHas st k then regKeys st else regKeys st ++ [k] := by
  induction st with
  | nil => simp [regSet, regKeys, regHas, regGet]
  | cons p rest ih =>
      obtain ⟨k', v'⟩ := p
      by_cases h1 : k' = k <;> by_cases h2 : regHas rest k <;>
        simp_all [regSet, regKeys, regHas, regGet]

theorem regHas_iff_mem (st : Registry) (k : String) :
    regHas st k = true ↔ k ∈ regKeys st := by
  induction st with
  | nil => simp [regHas, regGet, regKeys]
  | cons p rest ih =>
      obtain ⟨k', v'⟩ := p
      by_cases h1 : k' = k
      · subst h1; simp [regHas, regGet, regKeys]
      · simp only [regHas, regGet, regKeys, List.map_cons, List.mem_cons] at ih ⊢
        rw [if_neg h1]
        constructor
        · intro hh; exact Or.inr (ih.mp hh)
        · rintro (he | hm)
          · exact absurd he.symm h1
          · exact ih.mpr hm

theorem regKeys_nodup_regSet {st : Registry} (hn : (regKeys st).Nodup) (k v : String) :
    (regKeys (regSet st k v)).Nodup := by
  rw [regKeys_regSet]
  by_cases hh : regHas st k
  · simp [hh, hn]
  · have hk : k ∉ regKeys st := fun hm => hh ((regHas_iff_mem st k).mpr hm)
    simp [hh, List.nodup_append, hn, hk]

/- Shaping lemmas. -/

theorem shapeFrom_length (rs : List RetrievalResult) :
    ∀ n, (shapeFrom n rs).length = rs.length := by
  induction rs with
  | nil => intro n; simp [shapeFrom]
  | cons r rest ih => intro n; simp [shapeFrom, ih]

theorem shapeFrom_getElem? (rs : List RetrievalResult) :
    ∀ n i, (shapeFrom n rs)[i]? = rs[i]?.map (shapeOne (n + i)) := by
  induction rs with
  | nil => intro n i; simp [shapeFrom]
  | cons r rest ih =>
      intro n i
      cases i with
      | zero => simp [shapeFrom]
      | succ j =>
          simp only [shapeFrom, List.getElem?_cons_succ, ih (n + 1) j]
          have : n + 1 + j = n + (j + 1) := by omega
          rw [this]

/- Substring lemmas. -/

theorem isPrefixOf_self (l : List Char) : List.isPrefixOf l l = true := by
  induction l with
  | nil => rfl
  | cons c cs ih => simp [List.isPrefixOf, ih]

theorem containsAt_append_self (pat : List Char) :
    ∀ pre : List Char, containsAt pat (pre ++ pat) = true := by
  intro pre
  induction pre with
  | nil =>
      cases pat with
      | nil => rfl
      | cons c cs => simp [containsAt, isPrefixOf_self]
  | cons c pre ih => simp [containsAt, ih]

theorem strContains_append (pre pat : String) : strContains (pre ++ pat) pat = true := by
  unfold strContains
  have : (pre ++ pat).toList = pre.toList ++ pat.toList := by
    simp [String.toList]
  rw [this]
  exact containsAt_append_self _ _

/- Step characterization. -/

theorem step_eq_applyWrite (st : Registry) (ev : CallEvent) :
    step st ev = applyWrite st (stepWrite st ev) := by
  obtain ⟨b, now, name, args⟩ := ev
  by_cases h1 : name = "retrieve_knowledge"
  · subst h1
    by_cases hv : (!args.query.truthy || !args.query.isString) = true
    · simp [step, handleCall, dispatch, stepWrite, wrapCall, applyWrite, hv]
    · cases hr : b.retrieve args.query.asString args.sessionId <;>
        simp [step, handleCall, dispatch, stepWrite, wrapCall, applyWrite, hv, hr, rkFinish]
  by_cases h2 : name = "retrieve_and_generate"
  · subst h2
    by_cases hv : (!args.query.truthy || !args.query.isString) = true
    · simp [step, handleCall, dispatch, stepWrite, wrapCall, applyWrite, hv]
    · cases hr : b.retrieveAndGenerate args.query.asString
          (resolveSession st args.sessionId) args.systemPrompt with
      | error e =>
          simp [step, handleCall, dispatch, stepWrite, wrapCall, applyWrite, hv, hr, ragFinish]
      | ok r =>
          cases hs : r.sessionId with
          | none =>
              simp [step, handleCall, dispatch, stepWrite, wrapCall, applyWrite, hv, hr,
                ragFinish, ragStore, hs]
          | some tok =>
              by_cases ht : tok = "" <;>
                simp [step, handleCall, dispatch, stepWrite, wrapCall, applyWrite, hv, hr,
                  ragFinish, ragStore, hs, ht]
  by_cases h3 : name = "create_session"
  · subst h3
    simp [step, handleCall, dispatch, stepWrite, wrapCall, applyWrite]
  by_cases h4 : name = "list_sessions"
  · subst h4
    simp [step, handleCall, dispatch, stepWrite, wrapCall, applyWrite]
  simp [step, handleCall, dispatch, stepWrite, wrapCall, applyWrite, h1, h2, h3, h4]

/- Last-write lemmas. -/

theorem lookupLast_nil (h : String) : lookupLast [] h = none := rfl

theorem lookupLast_single (k v h : String) :
    lookupLast [(k, v)] h = if k = h then some v else none := by
  by_cases hk : k = h
  · subst hk; simp [lookupLast, List.find?]
  · have hb : (k == h) = false := by simp [hk]
    simp [lookupLast, List.find?, hb, hk]

theorem lookupLast_append (xs ys : List (String × String)) (h : String) :
    lookupLast (xs ++ ys) h = (lookupLast ys h).or (lookupLast xs h) := by
  simp only [lookupLast, List.reverse_append, List.find?_append]
  cases (ys.reverse.find? fun p => p.1 == h) <;> simp [Option.or]

theorem regGet_runRegistry : ∀ (evs : List CallEvent) (st : Registry) (h : String),
    regGet (runRegistry st evs) h = (lookupLast (traceWrites st evs) h).or (regGet st h) := by
  intro evs
  induction evs with
  | nil => intro st h; simp [runRegistry, traceWrites, lookupLast, List.find?, Option.or]
  | cons ev evs ih =>
      intro st h
      have hstep := step_eq_applyWrite st ev
      simp only [runRegistry, traceWrites]
      rw [ih (step st ev) h, lookupLast_append, hstep]
      cases hw : stepWrite st ev with
      | none =>
          simp only [applyWrite, Option.toList, lookupLast_nil]
          generalize lookupLast (traceWrites st evs) h = L
          cases L <;> simp [Option.or]
      | some kv =>
          obtain ⟨k, v⟩ := kv
          simp only [applyWrite, Option.toList]
          rw [regGet_regSet, lookupLast_single]
          generalize lookupLast (traceWrites (regSet st k v) evs) h = L
          cases L <;> by_cases hk : k = h <;> simp [Option.or, hk]

theorem regKeys_runRegistry_nodup :
    ∀ (evs : List CallEvent) (st : Registry),
      (regKeys st).Nodup → (regKeys (runRegistry st evs)).Nodup := by
  intro evs
  induction evs with
  | nil => intro st hn; simpa [runRegistry] using hn
  | cons ev evs ih =>
      intro st hn
      simp only [runRegistry]
      apply ih
      rw [step_eq_applyWrite]
      cases stepWrite st ev with
      | none => simpa [applyWrite] using hn
      | some kv => exact regKeys_nodup_regSet hn kv.1 kv.2

/- Claim theorems. -/

/-- Claim C1 (code bug): the retrieve-knowledge handler never reads maxResults,
so the declared 1 to 100 bound of the advertised input schema is not enforced:
the argument is ignored by every tool for every value, and calls with
maxResults 0, 101 and 50 all succeed against a stub backend instead of the
out-of-range ones failing with InvalidParams. -/
theorem C1_maxResults_not_validated :
    (∀ (m : Option Int) (b : Backend) (now : Nat) (st : Registry) (name : String) (args : Args),
        handleCall b now st name { args with maxResults := m } =
          handleCall b now st name args)
    ∧ handleCall (stubRetrieve []) 0 [] "retrieve_knowledge"
        { query := .str "x", maxResults := some 0 } =
        .ok (.retrieveOut { query := "x", results := [], totalResults := 0 }, [])
    ∧ handleCall (stubRetrieve []) 0 [] "retrieve_knowledge"
        { query := .str "x", maxResults := some 101 } =
        .ok (.retrieveOut { query := "x", results := [], totalResults := 0 }, [])
    ∧ handleCall (stubRetrieve []) 0 [] "retrieve_knowledge"
        { query := .str "x", maxResults := some 50 } =
        .ok (.retrieveOut { query := "x", results := [], totalResults := 0 }, []) :=
  ⟨fun _ _ _ _ _ _ => rfl, rfl, rfl, rfl⟩

/-- Claim C2: with a supplied session handle, the generate branch calls the
backend exactly at the continuation resolved through the registry; a
registered handle resolves to its stored token and an unregistered one passes
through unresolved; after a successful response carrying the token tok-1 the
entry for the handle is overwritten, so a second call with the same handle
hands tok-1 to the backend. -/
theorem C2_session_resolution (b : Backend) (now now2 : Nat) (st : Registry) (sid : String)
    (hsid : sid ≠ "") : C2concl b now now2 st sid := by
  have hbne : (sid != "") = true := by simp [hsid]
  have hragStep : ragStep sid now st = regSet st sid "tok-1" := by
    simp [ragStep, step, handleCall, dispatch, ragArgs, wrapCall, stubGen, ragFinish,
      ragStore, handleOrGenerated, hsid, JSValue.truthy, JSValue.isString, JSValue.asString]
  have hget : regGet (ragStep sid now st) sid = some "tok-1" := by
    rw [hragStep]; exact regGet_regSet_self _ _ _
  have hres2 : resolveSession (ragStep sid now st) (some sid) = some "tok-1" := by
    simp [resolveSession, regHas, hget, hbne]
  refine ⟨rfl, ?_, ?_, hget, hres2, ?_⟩
  · intro tok htok
    simp [resolveSession, regHas, htok, hbne]
  · intro hmiss
    simp [resolveSession, hmiss]
  · calc
      handleCall b now2 (ragStep sid now st) "retrieve_and_generate" (ragArgs sid) =
          wrapCall "retrieve_and_generate"
            (ragFinish "q" (some sid) now2 (ragStep sid now st)
              (b.retrieveAndGenerate "q"
                (resolveSession (ragStep sid now st) (some sid)) none)) := rfl
      _ = wrapCall "retrieve_and_generate"
            (ragFinish "q" (some sid) now2 (ragStep sid now st)
              (b.retrieveAndGenerate "q" (some "tok-1") none)) := by rw [hres2]

/-- Witness for the session-resolution claim at the handle energy. -/
theorem C2_session_resolution_witness :
    ("energy" : String) ≠ "" ∧ C2concl (stubGen "r2" "tok-2") 0 1 [] "energy" :=
  ⟨by decide, C2_session_resolution (stubGen "r2" "tok-2") 0 1 [] "energy" (by decide)⟩

/-- Claim C3: when the gateway returns a result list, the shaped output is the
query, the results in gateway order with 1-based ranks, the texts, the scores,
the Unknown source marker when no locator is usable, and the list length as
the total count. -/
theorem C3_rank_assignment (b : Backend) (now : Nat) (st : Registry) (q : String)
    (rs : List RetrievalResult) (hq : q ≠ "")
    (hb : b.retrieve q none = .ok rs) : C3concl b now st q rs := by
  refine ⟨?_, shapeFrom_length rs 0, ?_⟩
  · have ht : (JSValue.str q).truthy = true := by simp [JSValue.truthy, hq]
    simp [handleCall, dispatch, wrapCall, ht, JSValue.isString, JSValue.asString, hb,
      rkFinish, shapeResults]
  · intro i hi
    have hget : (shapeResults rs)[i]? = rs[i]?.map (shapeOne i) := by
      have h0 := shapeFrom_getElem? rs 0 i
      simpa [shapeResults] using h0
    obtain ⟨r, hr⟩ : ∃ r, rs[i]? = some r := ⟨rs[i], List.getElem?_eq_getElem hi⟩
    have hD : (shapeResults rs).getD i default = shapeOne i r := by
      rw [List.getD_eq_getElem?_getD, hget, hr]; rfl
    have hDr : rs.getD i default = r := by
      rw [List.getD_eq_getElem?_getD, hr]; rfl
    rw [hD, hDr]
    refine ⟨rfl, rfl, rfl, ?_⟩
    intro hloc
    simp [shapeOne, sourceOf, hloc]

/-- Witness for the rank-assignment claim on the two-result scenario. -/
theorem C3_rank_assignment_witness :
    ("test query" : String) ≠ ""
    ∧ (stubRetrieve [resA, resB]).retrieve "test query" none = .ok [resA, resB]
    ∧ C3concl (stubRetrieve [resA, resB]) 0 [] "test query" [resA, resB] :=
  ⟨by decide, rfl, C3_rank_assignment (stubRetrieve [resA, resB]) 0 [] "test query"
    [resA, resB] (by decide) rfl⟩

/-- Claim C4: a thrown McpError is re-raised unchanged while any other thrown
error is wrapped into an InternalError carrying the tool name and the original
message; in particular a throttled backend surfaces through retrieve-knowledge
as an InternalError whose message contains ThrottlingException. -/
theorem C4_error_wrapping :
    (∀ (name : String) (e : McpError), wrapError name (.mcp e) = e)
    ∧ (∀ name msg : String, wrapError name (.plain msg) =
        { code := .InternalError,
          message := "Error executing tool " ++ name ++ ": " ++ msg })
    ∧ handleCall throttled 0 [] "retrieve_knowledge" { query := .str "q" } =
        .error { code := .InternalError,
                 message := "Error executing tool retrieve_knowledge: Failed to retrieve from knowledge base: ThrottlingException" }
    ∧ strContains
        "Error executing tool retrieve_knowledge: Failed to retrieve from knowledge base: ThrottlingException"
        "ThrottlingException" = true :=
  ⟨fun _ _ => rfl, fun _ _ => rfl, rfl, by decide⟩

/-- Claim C5: starting from the empty registry, keys stay unique so each handle
maps to at most one token; the stored token is always the value of the last
write to that handle, where the only writes are the empty token of
create-session and the token of a successful generate response; any failing
call leaves the registry unchanged, as does a successful generate whose
response carries no truthy token. -/
theorem C5_registry_invariant :
    (∀ evs : List CallEvent, (regKeys (runRegistry [] evs)).Nodup)
    ∧ (∀ (evs : List CallEvent) (h : String),
        regGet (runRegistry [] evs) h = lookupLast (traceWrites [] evs) h)
    ∧ (∀ (st : Registry) (ev : CallEvent), step st ev = applyWrite st (stepWrite st ev))
    ∧ (∀ (st : Registry) (ev : CallEvent) (e : McpError),
        handleCall ev.backend ev.now st ev.name ev.args = .error e → step st ev = st)
    ∧ (∀ (st : Registry) (ev : CallEvent) (r : RetrieveAndGenerateResult),
        ev.name = "retrieve_and_generate" →
        ev.backend.retrieveAndGenerate ev.args.query.asString
            (resolveSession st ev.args.sessionId) ev.args.systemPrompt = .ok r →
        (r.sessionId = none ∨ r.sessionId = some "") → step st ev = st) := by
  refine ⟨?_, ?_, step_eq_applyWrite, ?_, ?_⟩
  · intro evs
    exact regKeys_runRegistry_nodup evs [] (by simp [regKeys])
  · intro evs h
    rw [regGet_runRegistry]
    generalize lookupLast (traceWrites [] evs) h = L
    cases L <;> simp [Option.or, regGet]
  · intro st ev e he
    simp [step, he]
  · rintro st ⟨b, now, name, args⟩ r hname hok hsid
    simp only at hname hok
    subst hname
    by_cases hv : (!args.query.truthy || !args.query.isString) = true
    · simp [step, handleCall, dispatch, wrapCall, hv]
    · rcases hsid with hs | hs <;>
        simp [step, handleCall, dispatch, wrapCall, hv, hok, ragFinish, ragStore, hs]

/-- Witness for the registry-invariant claim on a concrete trace. -/
theorem C5_registry_invariant_witness :
    (regKeys (runRegistry [] demoEvents)).Nodup
    ∧ regGet (runRegistry [] demoEvents) "energy" =
        lookupLast (traceWrites [] demoEvents) "energy"
    ∧ step [] invalidQueryEvent = []
    ∧ step [] noTokenEvent = [] := by
  obtain ⟨h1, h2, h3, h4, h5⟩ := C5_registry_invariant
  refine ⟨h1 demoEvents, h2 demoEvents "energy", ?_, ?_⟩
  · exact h4 [] invalidQueryEvent
      { code := .InvalidParams, message := "Query is required and must be a string" } rfl
  · exact h5 [] noTokenEvent
      { output := { text := "r" }, citations := none, sessionId := none } rfl rfl (Or.inl rfl)

/-- Claim C6: a missing, non-string or empty query fails both retrieval tools
with InvalidParams; the error is the same for every backend and every registry
state, and the registry is left unchanged, so no collaborator is involved. -/
theorem C6_query_validation (b : Backend) (now : Nat) (st : Registry) (args : Args)
    (h : args.query.truthy = false ∨ args.query.isString = false) :
    handleCall b now st "retrieve_knowledge" args =
        .error { code := .InvalidParams, message := "Query is required and must be a string" }
    ∧ handleCall b now st "retrieve_and_generate" args =
        .error { code := .InvalidParams, message := "Query is required and must be a string" }
    ∧ step st { backend := b, now := now, name := "retrieve_knowledge", args := args } = st
    ∧ step st { backend := b, now := now, name := "retrieve_and_generate", args := args } = st := by
  have hv : (!args.query.truthy || !args.query.isString) = true := by
    rcases h with h | h <;> simp [h]
  refine ⟨?_, ?_, ?_, ?_⟩ <;>
    simp [handleCall, dispatch, wrapCall, wrapError, step, hv]

/-- Witness for the query-validation claim at the empty query. -/
theorem C6_query_validation_witness :
    ((JSValue.str "").truthy = false ∨ (JSValue.str "").isString = false)
    ∧ (handleCall (stubRetrieve []) 0 [] "retrieve_knowledge" { query := .str "" } =
          .error { code := .InvalidParams, message := "Query is required and must be a string" }
      ∧ handleCall (stubRetrieve []) 0 [] "retrieve_and_generate" { query := .str "" } =
          .error { code := .InvalidParams, message := "Query is required and must be a string" }
      ∧ step [] { backend := stubRetrieve [], now := 0, name := "retrieve_knowledge",
                  args := { query := .str "" } } = []
      ∧ step [] { backend := stubRetrieve [], now := 0, name := "retrieve_and_generate",
                  args := { query := .str "" } } = []) :=
  ⟨Or.inl rfl, C6_query_validation (stubRetrieve []) 0 [] { query := .str "" } (Or.inl rfl)⟩

/-- Claim C7: create-session allocates the supplied name or a generated handle
with the session underscore prefix, inserts it with the empty token even over
an existing entry, answers with the handle and the success message, and a
subsequent list-sessions reports the handle as inactive. -/
theorem C7_create_session (b : Backend) (now now2 : Nat) (st : Registry)
    (nameOpt : Option String) : C7concl b now now2 st nameOpt := by
  refine ⟨rfl, ?_, ?_, regGet_regSet_self _ _ _, rfl, ?_⟩
  · intro s hs hne
    subst hs
    simp [handleOrGenerated, hne]
  · intro hn
    subst hn
    rfl
  · have hm : (handleOrGenerated nameOpt now, "") ∈
        regSet st (handleOrGenerated nameOpt now) "" := mem_regSet_self _ _ _
    simp only [listShape]
    exact List.mem_map_of_mem _ hm

/-- Witness for the create-session claim at the name energy. -/
theorem C7_create_session_witness :
    (("energy" : String) ≠ "")
    ∧ handleOrGenerated (some "energy") 0 = "energy"
    ∧ regGet (regSet [] (handleOrGenerated (some "energy") 0) "")
        (handleOrGenerated (some "energy") 0) = some ""
    ∧ ({ sessionId := handleOrGenerated (some "energy") 0, bedrockSessionId := none,
         active := false } : SessionEntry) ∈
        listShape (regSet [] (handleOrGenerated (some "energy") 0) "") := by
  have h := C7_create_session (stubRetrieve []) 0 1 [] (some "energy")
  exact ⟨by decide, h.2.1 "energy" rfl (by decide), h.2.2.2.1, h.2.2.2.2.2⟩

/-- Claim C8: any unknown tool name fails with MethodNotFound, the message
carries the unrecognized name, and the registry is untouched. -/
theorem C8_unknown_tool (b : Backend) (now : Nat) (st : Registry) (args : Args) (name : String)
    (h1 : name ≠ "retrieve_knowledge") (h2 : name ≠ "retrieve_and_generate")
    (h3 : name ≠ "create_session") (h4 : name ≠ "list_sessions") :
    handleCall b now st name args =
      .error { code := .MethodNotFound, message := "Unknown tool: " ++ name }
    ∧ strContains ("Unknown tool: " ++ name) name = true
    ∧ step st { backend := b, now := now, name := name, args := args } = st := by
  refine ⟨?_, strContains_append _ _, ?_⟩ <;>
    simp [handleCall, dispatch, wrapCall, wrapError, step, h1, h2, h3, h4]

/-- Witness for the unknown-tool claim at the name delete underscore everything. -/
theorem C8_unknown_tool_witness :
    (("delete_everything" : String) ≠ "retrieve_knowledge"
      ∧ ("delete_everything" : String) ≠ "retrieve_and_generate"
      ∧ ("delete_everything" : String) ≠ "create_session"
      ∧ ("delete_everything" : String) ≠ "list_sessions")
    ∧ (handleCall (stubRetrieve []) 0 [] "delete_everything" {} =
        .error { code := .MethodNotFound, message := "Unknown tool: " ++ "delete_everything" }
      ∧ strContains ("Unknown tool: " ++ "delete_everything") "delete_everything" = true
      ∧ step [] { backend := stubRetrieve [], now := 0, name := "delete_everything",
                  args := {} } = []) :=
  ⟨⟨by decide, by decide, by decide, by decide⟩,
   C8_unknown_tool (stubRetrieve []) 0 [] {} "delete_everything"
     (by decide) (by decide) (by decide) (by decide)⟩

/-- Claim C9 counterexample: the gateway does not default the optional backend
fields; a backend result with absent score, locator and metadata normalizes to
a result whose score, locator and metadata are still absent, and a generate
response without citations normalizes to a result whose citations are absent,
exactly as the repository test expects. -/
theorem C9_counterexample :
    retrieve cfgX (fun _ => .ok { retrievalResults := some [rawSparse] }) "q" none =
      .ok [{ content := { text := "t" }, location := none, score := none, metadata := none }]
    ∧ retrieveAndGenerate cfgX (fun _ => .ok rawNoCitations) "q" none none =
      .ok { output := { text := "Generated response" }, citations := none,
            sessionId := some "session-456" } :=
  ⟨rfl, rfl⟩

/-- Claim C9 as amended: the gateway defaults only the required text fields
(content text, output text, citation text, span offsets, reference list),
while score, locator, metadata and the citations list are passed through
unchanged and stay absent when the backend omits them, these being the
documented optional fields of the normalized result. -/
theorem C9_optional_fields_passthrough :
    (∀ r : RawRetrievalResult,
        (normalizeRetrievalResult r).content.text = (r.content.bind RawContent.text).getD ""
        ∧ (normalizeRetrievalResult r).score = r.score
        ∧ (normalizeRetrievalResult r).location = r.location
        ∧ (normalizeRetrievalResult r).metadata = r.metadata)
    ∧ (∀ (loc : Option KBLocation) (sc : Option Rat) (md : Option Metadata),
        normalizeRetrievalResult { content := none, location := loc, score := sc,
                                   metadata := md } =
          { content := { text := "" }, location := loc, score := sc, metadata := md })
    ∧ (∀ (cfg : Config) (q : String) (sid : Option String) (resp : RawRetrieveResponse),
        retrieve cfg (fun _ => .ok resp) q sid =
          .ok ((resp.retrievalResults.getD []).map normalizeRetrievalResult))
    ∧ normalizeCitation { generatedResponsePart := none, retrievedReferences := none } =
        { generatedResponsePart :=
            { textResponsePart := { text := "", span := { start := 0, stop := 0 } } }
          retrievedReferences := [] }
    ∧ (∀ c : RawCitation,
        (normalizeCitation c).retrievedReferences =
          (c.retrievedReferences.getD []).map normalizeReference)
    ∧ (∀ (cfg : Config) (q : String) (sid sp : Option String) (g : RawGenerateResponse),
        retrieveAndGenerate cfg (fun _ => .ok g) q sid sp =
          .ok { output := { text := (g.output.bind RawContent.text).getD "" }
                citations := g.citations.map (List.map normalizeCitation)
                sessionId := g.sessionId }) :=
  ⟨fun _ => ⟨rfl, rfl, rfl, rfl⟩, fun _ _ _ => rfl, fun _ _ _ _ => rfl, rfl, fun _ => rfl,
   fun _ _ _ _ _ => rfl⟩

/-- Claim C10: an absent or empty continuation never reaches the backend: the
retrieve request omits nextToken and the generate request omits sessionId when
the continuation argument is absent or empty; the outbound request of each
gateway operation is exactly the constructed input; and a handle whose
registry entry is the empty token of create-session resolves to the empty
continuation, which the generate request then omits. -/
theorem C10_empty_continuation_omitted :
    (∀ (cfg : Config) (q : String), (mkRetrieveInput cfg q none).nextToken = none)
    ∧ (∀ (cfg : Config) (q : String), (mkRetrieveInput cfg q (some "")).nextToken = none)
    ∧ (∀ (cfg : Config) (q : String) (sp : Option String),
        (mkGenerateInput cfg q none sp).sessionId = none)
    ∧ (∀ (cfg : Config) (q : String) (sp : Option String),
        (mkGenerateInput cfg q (some "") sp).sessionId = none)
    ∧ (∀ (cfg : Config) (send : RetrieveRequest → Except String RawRetrieveResponse)
        (q : String) (sid : Option String),
        retrieve cfg send q sid = processRetrieveResponse (send (mkRetrieveInput cfg q sid)))
    ∧ (∀ (cfg : Config) (send : GenerateRequest → Except String RawGenerateResponse)
        (q : String) (sid sp : Option String),
        retrieveAndGenerate cfg send q sid sp =
          processGenerateResponse (send (mkGenerateInput cfg q sid sp)))
    ∧ (∀ (b : Backend) (now : Nat) (st : Registry),
        step st { backend := b, now := now, name := "create_session",
                  args := { sessionName := some "energy" } } = regSet st "energy" "")
    ∧ (∀ st : Registry, resolveSession (regSet st "energy" "") (some "energy") = some "")
    ∧ (∀ (cfg : Config) (q : String) (sp : Option String) (st : Registry),
        (mkGenerateInput cfg q
          (resolveSession (regSet st "energy" "") (some "energy")) sp).sessionId = none) := by
  have hres : ∀ st : Registry, resolveSession (regSet st "energy" "") (some "energy") = some "" := by
    intro st
    have hg : regGet (regSet st "energy" "") "energy" = some "" := regGet_regSet_self _ _ _
    simp [resolveSession, regHas, hg]
  refine ⟨fun _ _ => rfl, fun _ _ => rfl, fun _ _ _ => rfl, fun _ _ _ => rfl,
    fun _ _ _ _ => rfl, fun _ _ _ _ _ => rfl, fun b now st => rfl, hres, ?_⟩
  intro cfg q sp st
  rw [hres st]
  rfl

end KB
